import Mathlib

/-!
Shallow embedding of the extraction-and-orchestration core of the
python-web-scrapping repository.

The Python sources use BeautifulSoup handles; here a parsed document is
represented by the pieces of the DOM that the parsing functions actually
consult (each `Option` marks a `find` that can return `None`), and the
text of a node is the already-stripped string that `get_text(strip=True)`
would produce.  Python exceptions are modelled with `Except String`;
functions wrapped in `try/except` returning a default are total.
Python `dict` construction is modelled by `dictInsert`/`dictUpdate`
(insert-or-overwrite keeping first-insertion position, exactly the
semantics of `d[k] = v` and `{**a, **b}`).
-/

set_option autoImplicit false

namespace PyDict

/-- Python `d[k] = v` on a dict represented as an ordered association
list with unique keys: overwrite in place when the key exists, else
append at the end. -/
def dictInsert {α : Type} (d : List (String × α)) (k : String) (v : α) :
    List (String × α) :=
  if d.any (fun p => p.1 == k) then
    d.map (fun p => bif p.1 == k then (k, v) else p)
  else
    d ++ [(k, v)]

/-- Python `a.update(b)` / `{**a, **b}`: fold `dictInsert` of every pair
of `b` over `a`. -/
def dictUpdate {α : Type} (a b : List (String × α)) : List (String × α) :=
  b.foldl (fun d p => dictInsert d p.1 p.2) a

/-- Python dict lookup `d[k]` (first entry with the key; dicts built by
`dictInsert` hold each key at most once). -/
def pyLookup {α : Type} : List (String × α) → String → Option α
  | [], _ => none
  | p :: rest, k => bif p.1 == k then some p.2 else pyLookup rest k

/-- Python dict-comprehension `{k: v for (k, v) in ps}`. -/
def pyDict {α : Type} (ps : List (String × α)) : List (String × α) :=
  ps.foldl (fun d p => dictInsert d p.1 p.2) []

end PyDict

open PyDict

namespace PyStr

/-- Python `s.split(",")` over the character list of `s`: the pieces
between commas, empty pieces kept; the result always has at least one
piece (`"".split(",") == [""]`). -/
def splitComma : List Char → List (List Char)
  | [] => [[]]
  | c :: rest =>
    if c = ',' then [] :: splitComma rest
    else
      match splitComma rest with
      | [] => [[c]]
      | piece :: pieces => (c :: piece) :: pieces

/-- Python `s.strip()`: drop leading and trailing whitespace. -/
def pyStrip (cs : List Char) : List Char :=
  ((cs.dropWhile Char.isWhitespace).reverse.dropWhile Char.isWhitespace).reverse

/-- Python `s.upper()` (ASCII, which covers ticker symbols). -/
def pyUpper (cs : List Char) : List Char :=
  cs.map Char.toUpper

/-- Symbol normalization shared by every endpoint:
`[symbol.strip().upper() for symbol in payload.split(",")]`. -/
def normalizeSymbols (payload : String) : List String :=
  (splitComma payload.toList).map (fun t => String.mk (pyUpper (pyStrip t)))

/-- Python `s.split()` (no separator): maximal runs of non-whitespace,
empty words never produced. -/
def pySplitWs (cs : List Char) : List (List Char) :=
  let r := cs.foldl
    (fun (acc : List (List Char) × List Char) c =>
      if c.isWhitespace then
        if acc.2.isEmpty then acc else (acc.1 ++ [acc.2], [])
      else (acc.1, acc.2 ++ [c])) ([], [])
  if r.2.isEmpty then r.1 else r.1 ++ [r.2]

/-- Python `w.isdigit()` for a word produced by `split` (true iff the
word is non-empty and all digits). -/
def pyIsDigit (w : List Char) : Bool :=
  !w.isEmpty && w.all Char.isDigit

end PyStr

open PyStr

/-- One extracted row: an ordered header→text mapping. -/
abbrev Row := List (String × String)

/-- One per-symbol outcome record, mirroring the response dicts of the
batch endpoints: `msg` for the two message shapes
(`{"stock_symbol": s, "message": m}`), `err` for
(`{"stock_symbol": s, "error": e}`). -/
inductive Outcome : Type
  | msg (stock_symbol message : String)
  | err (stock_symbol error : String)
  deriving DecidableEq

namespace MainPy

/-!
Embedding of `src/main.py`.  A `Soup` exposes, per CSS selector the code
queries, what `soup.find` would return.
-/

/-- JSON-ish values stored in the merged per-symbol document. -/
inductive Value : Type
  | str (s : String)
  | dict (kv : List (String × String))
  | table (rows : List Row)
  | reports (rs : List (String × String))
  deriving DecidableEq

/-- A stored document (Python dict from fragment name to payload). -/
abbrev Doc := List (String × Value)

/-- One `<li>` inside `ul#top-ratios`: texts of `span.name` / `span.value`
(`none` when the `find` returns `None`). -/
structure LiSpans : Type where
  name : Option String
  value : Option String
  deriving DecidableEq

/-- The `div#quarterly-shp` fragment: `thead` (with the `th` texts of
its first `tr`) and `tbody` rows (each row the `td` texts of one `tr`).
The outer `Option` of `thead` is `find("thead")`, the inner one
`find("tr")`. -/
structure ShpDiv : Type where
  thead : Option (Option (List String))
  tbody : Option (List (List String))
  deriving DecidableEq

/-- A `table.data-table`: `header_row` holds the `th` texts of
`data_table.find("tr")` (`none` when no `tr` exists); `tbody` the `td`
texts of each `tr` of `find("tbody")`. -/
structure DataTable : Type where
  header_row : Option (List String)
  tbody : Option (List (List String))
  deriving DecidableEq

/-- A section (e.g. `section#profit-loss`) containing an optional
`table.data-table`. -/
structure Section : Type where
  data_table : Option DataTable
  deriving DecidableEq

/-- The parsed company page, one field per selector `main.py` queries. -/
structure Soup : Type where
  top_ratios : Option (List LiSpans) := none
  quarterly_shp : Option ShpDiv := none
  profit_loss : Option Section := none
  balance_sheet : Option Section := none
  quarters : Option Section := none
  peers_placeholder : Option Section := none
  shareholding : Option Section := none
  cash_flow : Option Section := none
  deriving DecidableEq

/-- `parse_ul_top_ratios` (main.py 44–61): `None` when `ul#top-ratios`
is absent, else the dict with the symbol and the name→value items
(items whose name or value span is missing are skipped). -/
def parse_ul_top_ratios (stock_symbol : String) (soup : Soup) : Option Doc :=
  match soup.top_ratios with
  | none => none
  | some lis =>
    let items := lis.foldl
      (fun d li =>
        match li.name, li.value with
        | some k, some v => dictInsert d k v
        | _, _ => d) []
    some [("stock_symbol", Value.str stock_symbol),
          ("stock_details", Value.dict items)]

/-- Row build of `parse_shareholder_table`:
`{headers[idx]: cell for idx, cell in enumerate(tds)}` — raises
`IndexError` when a row has more cells than there are headers. -/
def rowFromHeadersAux (ths : List String) : Nat → List String → Row →
    Except String Row
  | _, [], acc => .ok acc
  | i, c :: cs, acc =>
    match ths[i]? with
    | some h => rowFromHeadersAux ths (i + 1) cs (dictInsert acc h c)
    | none => .error "IndexError: list index out of range"

def rowFromHeaders (ths cells : List String) : Except String Row :=
  rowFromHeadersAux ths 0 cells []

/-- `parse_shareholder_table` (main.py 64–81): `None` when
`div#quarterly-shp` is absent; raises (`AttributeError`) when `thead`,
its first `tr`, or `tbody` is missing. -/
def parse_shareholder_table (soup : Soup) : Except String (Option Doc) :=
  match soup.quarterly_shp with
  | none => .ok none
  | some t =>
    match t.thead with
    | none => .error "AttributeError: NoneType has no attribute find"
    | some none => .error "AttributeError: NoneType has no attribute find_all"
    | some (some ths) =>
      match t.tbody with
      | none => .error "AttributeError: NoneType has no attribute find_all"
      | some trs => do
        let rows ← trs.mapM (fun cells => rowFromHeaders ths cells)
        .ok (some [("shareholder_data", Value.table rows)])

/-- The shared body of the `section`-table parsers of main.py
(profit-loss 84–139, balance-sheet, quarters, shareholding, cash-flow):
every missing piece yields the empty row list, a data row whose `td`
count differs from the header count is skipped (`continue`), and a kept
row maps `headers[idx]` to the cell text. -/
def dataTableRows (sec : Option Section) : List Row :=
  match sec with
  | none => []
  | some s =>
    match s.data_table with
    | none => []
    | some dt =>
      match dt.header_row with
      | none => []
      | some ths =>
        if ths.isEmpty then []
        else
          match dt.tbody with
          | none => []
          | some trs =>
            let rows := trs.foldl
              (fun rows cells =>
                if cells.length ≠ ths.length then rows
                else rows ++ [pyDict (ths.zip cells)]) []
            if rows.isEmpty then [] else rows

/-- `parse_profit_loss_table` (main.py 84–139). -/
def parse_profit_loss_table (soup : Soup) : Doc :=
  [("profit_loss", Value.table (dataTableRows soup.profit_loss))]

/-- `parse_balance_sheet_table` (main.py 142–197). -/
def parse_balance_sheet_table (soup : Soup) : Doc :=
  [("balance_sheet", Value.table (dataTableRows soup.balance_sheet))]

/-- `parse_quaterly_result_table` (main.py 200–255). -/
def parse_quaterly_result_table (soup : Soup) : Doc :=
  [("quarterly_result", Value.table (dataTableRows soup.quarters))]

/-- `shareholding_table` (main.py 258–313). -/
def shareholding_table (soup : Soup) : Doc :=
  [("shareholding_result", Value.table (dataTableRows soup.shareholding))]

/-- `cashflow_table` (main.py 315–370). -/
def cashflow_table (soup : Soup) : Doc :=
  [("cashflow_result", Value.table (dataTableRows soup.cash_flow))]

/-- Row build of `parse_peer_comparision_table` (main.py 413–416):
`{headers[i]: (cells[i] if i < len(cells) else "N/A") for i in
range(len(headers))}` — a short row is padded with `"N/A"`, a long row
is truncated to the header count. -/
def peerRow (ths cells : List String) : Row :=
  pyDict (ths.enum.map (fun p => (p.2, cells.getD p.1 "N/A")))

/-- `parse_peer_comparision_table` (main.py 373–432): rows with zero
`td` cells are skipped; every other row is kept via `peerRow`. -/
def parse_peer_comparision_table (soup : Soup) : Doc :=
  let rows :=
    match soup.peers_placeholder with
    | none => []
    | some s =>
      match s.data_table with
      | none => []
      | some dt =>
        match dt.header_row with
        | none => []
        | some ths =>
          if ths.isEmpty then []
          else
            match dt.tbody with
            | none => []
            | some trs =>
              let rows := trs.foldl
                (fun rows cells =>
                  if cells.length = 0 then rows
                  else rows ++ [peerRow ths cells]) []
              if rows.isEmpty then [] else rows
  [("peer_comparision", Value.table rows)]

/-- Result of `fetch_page` (main.py 34–41): a parsed document, a raised
`HTTPException(status, detail)`, or a propagated `requests` exception. -/
inductive FetchPageResult : Type
  | ok (doc : Soup)
  | httpError (status : Nat) (detail : String)
  | requestError (cause : String)
  deriving DecidableEq

/-- `fetch_page` (main.py 34–41): `requests.get` is modelled by `resp`
(`error` = a raised network exception, which propagates; `ok` = a
response with its status code and parsed body).  A 200 response yields
the parsed page; any other status raises
`HTTPException(status_code=404, detail="Failed to fetch page: <url>")`. -/
def fetch_page (url : String) (resp : Except String (Nat × Soup)) :
    FetchPageResult :=
  match resp with
  | .error cause => .requestError cause
  | .ok (status, doc) =>
    if status = 200 then .ok doc
    else .httpError 404 ("Failed to fetch page: " ++ url)

/-- An `<a>` tag inside the annual-reports list: `href` is
`a_tag.get("href")`, `text` its stripped text. -/
structure ATag : Type where
  href : Option String
  text : String
  deriving DecidableEq

/-- One `<li>` of the annual-reports section; `a` is `li.find("a")`. -/
structure AnnualLi : Type where
  a : Option ATag
  deriving DecidableEq

/-- The year extraction of `scrape_annual_reports` (main.py 453–454):
the first whitespace-separated all-digit word of the stripped anchor
text, defaulting to `"Unknown Year"`. -/
def yearOf (t : String) : String :=
  match (pySplitWs (pyStrip t.toList)).filter pyIsDigit with
  | [] => "Unknown Year"
  | w :: _ => String.mk w

/-- The link normalization of `scrape_annual_reports` (main.py 455–459):
hrefs starting with `/` are made absolute against bseindia.com. -/
def reportLink (href : String) : String :=
  if href.startsWith "/" then "https://www.bseindia.com" ++ href else href

/-- `scrape_annual_reports` (main.py 435–467).  `resp` models the
`requests.get` of the reports URL (`error` = network exception, caught
by the surrounding `try` and turned into `[]`).  Records are `(year,
url)` pairs; an `<li>` without an `<a>`, without an `href`, or with an
empty (falsy) `href` contributes nothing. -/
def scrape_annual_reports
    (resp : Except String (Nat × Option (List AnnualLi))) :
    List (String × String) :=
  match resp with
  | .error _ => []
  | .ok (status, sec) =>
    if status ≠ 200 then []
    else
      match sec with
      | none => []
      | some lis =>
        lis.foldl
          (fun acc li =>
            match li.a with
            | none => acc
            | some a =>
              match a.href with
              | none => acc
              | some h =>
                if h = "" then acc
                else acc ++ [(yearOf a.text, reportLink h)]) []

/-- The external responses one `scrape_and_save` invocation consumes:
the company page and the consolidated page used for annual reports. -/
structure FetchSim : Type where
  page : Except String (Nat × Soup)
  annual : Except String (Nat × Option (List AnnualLi))

/-- The body of `scrape_and_save` (main.py 477–514) minus the
`insert_one` call: returns the document that would be persisted (if
any) and the outcome dict.  Every raised exception (`fetch_page`,
`parse_shareholder_table`, and the `TypeError` of unpacking `None` in
the `{**details_data, **shareholder_data, ...}` merge) is caught by the
`except` and becomes an error outcome.  `combined_data` is assembled by
the dict-unpacking chain, i.e. iterated `dictUpdate`. -/
def scrape_and_save_core (stock_symbol : String) (f : FetchSim) :
    Option Doc × Outcome :=
  match fetch_page ("https://www.screener.in/company/" ++ stock_symbol ++ "/")
      f.page with
  | .requestError cause => (none, .err stock_symbol cause)
  | .httpError _ detail => (none, .err stock_symbol detail)
  | .ok soup =>
    let details_data := parse_ul_top_ratios stock_symbol soup
    match parse_shareholder_table soup with
    | .error e => (none, .err stock_symbol e)
    | .ok shareholder_data =>
      let profit_loss_data := parse_profit_loss_table soup
      let balance_sheet_data := parse_balance_sheet_table soup
      let quaterly_result_data := parse_quaterly_result_table soup
      let peer_comparision_data := parse_peer_comparision_table soup
      let shareholding_data := shareholding_table soup
      let cashflow_data := cashflow_table soup
      let annual_reports_data := scrape_annual_reports f.annual
      if details_data.isSome || shareholder_data.isSome then
        match details_data, shareholder_data with
        | some dd, some sd =>
          let combined_data :=
            dictInsert
              (dictUpdate (dictUpdate (dictUpdate (dictUpdate (dictUpdate
                (dictUpdate (dictUpdate (dictUpdate [] dd) sd)
                  profit_loss_data) balance_sheet_data)
                  quaterly_result_data) peer_comparision_data)
                  shareholding_data) cashflow_data)
              "annual_reports" (Value.reports annual_reports_data)
          (some combined_data,
           .msg stock_symbol "Data scraped and saved successfully.")
        | _, _ =>
          (none, .err stock_symbol
            "TypeError: argument of type NoneType is not a mapping")
      else
        (none, .msg stock_symbol "No shareholder table found.")

/-- `scrape_and_save` including the `insert_one` persistence step: the
collection is a list of documents and `insert_one` appends. -/
def scrape_and_save (coll : List Doc) (stock_symbol : String)
    (f : FetchSim) : List Doc × Outcome :=
  match scrape_and_save_core stock_symbol f with
  | (some d, o) => (coll ++ [d], o)
  | (none, o) => (coll, o)

/-- The `for symbol in stock_symbols` loop of the `/scrape-all-data`
endpoint (main.py 516–522): run `scrape_and_save` for each symbol in
order, threading the collection and appending each result. -/
def runSymbols (f : String → FetchSim) :
    List String → List Doc → List Doc × List Outcome
  | [], coll => (coll, [])
  | sym :: rest, coll =>
    let r := scrape_and_save coll sym (f sym)
    let rr := runSymbols f rest r.1
    (rr.1, r.2 :: rr.2)

/-- The `/scrape-all-data` endpoint `scrape_shareholder_data`
(main.py 470–524): normalize the comma-separated payload, then run
`scrape_and_save` for each symbol sequentially. -/
def scrape_shareholder_data (payload : String) (f : String → FetchSim)
    (coll : List Doc) : List Doc × List Outcome :=
  runSymbols f (normalizeSymbols payload) coll

end MainPy

namespace BothPy

/-!
Embedding of `scrape_table_data` from `src/main-scrape-both-data.py`
(lines 69–105); `src/main-scarpe-table-data.py` lines 25–61 are
line-for-line identical.
-/

/-- The `div#quarterly-shp` table as this file reads it: `thead` (outer
`Option` = `find("thead")`, inner = `find("tr")`, carrying the `th`
texts) and `tbody` rows, each row the texts of `tr.find_all(["td",
"th"])`. -/
structure ShpTable : Type where
  thead : Option (Option (List String))
  tbody : Option (List (List String))
  deriving DecidableEq

/-- The row loop of `scrape_table_data` (lines 92–100): cell 0 becomes
the value of the synthetic key `"Category"`, cell `idx ≥ 1` the value
of `headers[idx]` (an `IndexError` when `idx` is out of range
propagates). -/
def categoryRowAux (headers : List String) :
    Nat → List String → Row → Except String Row
  | _, [], acc => .ok acc
  | i, c :: cs, acc =>
    if i = 0 then categoryRowAux headers 1 cs (dictInsert acc "Category" c)
    else
      match headers[i]? with
      | some h => categoryRowAux headers (i + 1) cs (dictInsert acc h c)
      | none => .error "IndexError: list index out of range"

def categoryRow (headers cells : List String) : Except String Row :=
  categoryRowAux headers 0 cells []

/-- `scrape_table_data` (main-scrape-both-data.py 69–105): a non-200
status raises; a missing `quarterly-shp` container raises; a missing
`thead`, header `tr` or `tbody` raises an `AttributeError`; otherwise
the rows are built by `categoryRow` and returned with the symbol. -/
def scrape_table_data (stock_symbol : String) (status : Nat)
    (shp : Option ShpTable) : Except String (String × List Row) :=
  if status = 200 then
    match shp with
    | none => .error "No table found with id \x27quarterly-shp\x27"
    | some t =>
      match t.thead with
      | none => .error "AttributeError: NoneType has no attribute find"
      | some none =>
        .error "AttributeError: NoneType has no attribute find_all"
      | some (some headers) =>
        match t.tbody with
        | none => .error "AttributeError: NoneType has no attribute find_all"
        | some trs => do
          let rows ← trs.mapM (fun cells => categoryRow headers cells)
          .ok (stock_symbol, rows)
  else
    .error ("Failed to fetch page for " ++ stock_symbol ++
      ". Status code: " ++ toString status)

end BothPy

namespace ComparePy

/-!
Embedding of the `main -scrape-details.py` section of `src/compare.py`
(lines 75–133): `scrape_ul_with_id_top_ratios` and the
`/scrape-stocks` endpoint `scrape_multiple_stocks`.
-/

/-- What the `ul#top-ratios` element provides: its collapsed text
(`get_text(strip=True)`) and its `<li>` children. -/
structure UlData : Type where
  content : String
  lis : List MainPy.LiSpans
  deriving DecidableEq

/-- `scrape_ul_with_id_top_ratios` (compare.py 75–108): a network
exception propagates, a non-200 status raises `Exception`, a missing
`ul` returns `None`, otherwise the symbol/content/items document. -/
def scrape_ul_with_id_top_ratios (stock_symbol : String)
    (resp : Except String (Nat × Option UlData)) :
    Except String (Option MainPy.Doc) :=
  match resp with
  | .error cause => .error cause
  | .ok (status, ul) =>
    if status = 200 then
      match ul with
      | none => .ok none
      | some u =>
        let items := u.lis.foldl
          (fun d li =>
            match li.name, li.value with
            | some k, some v => dictInsert d k v
            | _, _ => d) []
        .ok (some [("stock_symbol", MainPy.Value.str stock_symbol),
                   ("content", MainPy.Value.str u.content),
                   ("items", MainPy.Value.dict items)])
    else
      .error ("Failed to fetch the page for " ++ stock_symbol ++
        ". Status code: " ++ toString status)

/-- The body of one iteration of the `/scrape-stocks` loop
(compare.py 121–131): the document inserted (if any) and the result
dict appended for one symbol; the `try/except` catches the
fetch/parse exception into an error entry. -/
def stockResult (sym : String)
    (r : Except String (Nat × Option UlData)) : Option MainPy.Doc × Outcome :=
  match scrape_ul_with_id_top_ratios sym r with
  | .error e => (none, .err sym e)
  | .ok none =>
    (none, .msg sym "No <ul> with id=\x27top-ratios\x27 found.")
  | .ok (some data) =>
    (some data, .msg sym "Data scraped and saved successfully.")

/-- The `for stock_symbol in stock_symbols` loop of `/scrape-stocks`
(compare.py 120–131): one `stockResult` per symbol in order, inserted
documents threaded through the collection. -/
def runStocks (f : String → Except String (Nat × Option UlData)) :
    List String → List MainPy.Doc → List MainPy.Doc × List Outcome
  | [], coll => (coll, [])
  | sym :: rest, coll =>
    match stockResult sym (f sym) with
    | (some d, o) =>
      let rr := runStocks f rest (coll ++ [d])
      (rr.1, o :: rr.2)
    | (none, o) =>
      let rr := runStocks f rest coll
      (rr.1, o :: rr.2)

/-- The `/scrape-stocks` endpoint `scrape_multiple_stocks`
(compare.py 110–133): normalize the payload, raise
`HTTPException(400)` when the symbol list is empty, else loop over the
symbols collecting one result dict per symbol. -/
def scrape_multiple_stocks (payload : String)
    (f : String → Except String (Nat × Option UlData))
    (coll : List MainPy.Doc) :
    Except String (List MainPy.Doc × List Outcome) :=
  let stock_symbols := normalizeSymbols payload
  if stock_symbols.isEmpty then
    .error "400: No stock symbols provided."
  else
    .ok (runStocks f stock_symbols coll)

end ComparePy

/-- Number of stored documents whose `stock_symbol` field equals the
given symbol (the document-store grain of claim C3). -/
def storedFor (coll : List MainPy.Doc) (sym : String) : Nat :=
  (coll.filter
    (fun d =>
      decide (pyLookup d "stock_symbol" = some (MainPy.Value.str sym)))).length

/-- A fetch simulation whose company page carries the two fragments
`scrape_and_save` requires before persisting (`ul#top-ratios` and
`div#quarterly-shp`). -/
def fetchPersist : MainPy.FetchSim where
  page := Except.ok (200,
    { top_ratios := some []
      quarterly_shp := some ⟨some (some []), some []⟩ })
  annual := Except.ok (200, none)

/-- A fetch simulation whose company-page request raises a network
exception (a transport failure). -/
def fetchFailing : MainPy.FetchSim where
  page := Except.error "ConnectionError: simulated network failure"
  annual := Except.ok (200, none)

/-- A batch environment in which only the symbol INFY suffers a
transport failure. -/
def fetchIso : String → MainPy.FetchSim :=
  fun t => if t = "INFY" then fetchFailing else fetchPersist

/-- A batch environment in which every fetch succeeds. -/
def fetchAllOk : String → MainPy.FetchSim :=
  fun _ => fetchPersist

/-!
## Helper lemmas
-/

theorem pyLookup_append_right {α : Type} (d : List (String × α)) (k : String)
    (v : α) (h : ∀ p, p ∈ d → p.1 ≠ k) :
    pyLookup (d ++ [(k, v)]) k = some v := by
  induction d with
  | nil => simp [pyLookup]
  | cons p rest ih =>
    have hp : (p.1 == k) = false := by
      simpa using h p (List.mem_cons_self p rest)
    simp only [List.cons_append, pyLookup, hp, cond_false]
    exact ih (fun q hq => h q (List.mem_cons_of_mem p hq))

theorem pyLookup_map_overwrite {α : Type} (d : List (String × α)) (k : String)
    (v : α) (h : d.any (fun p => p.1 == k)) :
    pyLookup (d.map (fun p => bif p.1 == k then (k, v) else p)) k = some v := by
  induction d with
  | nil => simp at h
  | cons p rest ih =>
    by_cases hk : p.1 = k
    · have hk' : (p.1 == k) = true := by simpa using hk
      simp [pyLookup, hk']
    · have hk' : (p.1 == k) = false := by simpa using hk
      simp only [List.any_cons, Bool.or_eq_true] at h
      rcases h with h | h
      · simp [hk'] at h
      · simp only [List.map_cons, hk', cond_false, pyLookup]
        exact ih h

/-- Inserting a key always makes it present with the inserted value. -/
theorem pyLookup_dictInsert {α : Type} (d : List (String × α)) (k : String)
    (v : α) : pyLookup (dictInsert d k v) k = some v := by
  unfold dictInsert
  by_cases h : d.any (fun p => p.1 == k) = true
  · rw [if_pos h]
    exact pyLookup_map_overwrite d k v h
  · rw [if_neg h]
    apply pyLookup_append_right
    simp only [List.any_eq_true, beq_iff_eq, not_exists, not_and] at h
    exact h

theorem pyLookup_append_ne {α : Type} (d : List (String × α))
    (k k2 : String) (v : α) (h : k2 ≠ k) :
    pyLookup (d ++ [(k2, v)]) k = pyLookup d k := by
  have h2 : (k2 == k) = false := by simpa using h
  induction d with
  | nil => simp [pyLookup, h2]
  | cons p rest ih =>
    cases hk : (p.1 == k) with
    | true => simp [pyLookup, hk]
    | false => simp [pyLookup, hk, ih]

theorem pyLookup_map_ne {α : Type} (d : List (String × α))
    (k k2 : String) (v : α) (h : k2 ≠ k) :
    pyLookup (d.map (fun p => bif p.1 == k2 then (k2, v) else p)) k
      = pyLookup d k := by
  have h2 : (k2 == k) = false := by simpa using h
  induction d with
  | nil => rfl
  | cons p rest ih =>
    cases hp : (p.1 == k2) with
    | true =>
      have hpk : (p.1 == k) = false := by
        have : p.1 = k2 := by simpa using hp
        simpa [this] using h
      simp only [List.map_cons, hp, cond_true, pyLookup, h2, cond_false, hpk]
      exact ih
    | false =>
      simp only [List.map_cons, hp, cond_false, pyLookup]
      cases hk : (p.1 == k) with
      | true => simp
      | false => simpa using ih

/-- Inserting under a different key leaves a lookup unchanged. -/
theorem pyLookup_dictInsert_ne {α : Type} (d : List (String × α))
    (k k2 : String) (v : α) (h : k2 ≠ k) :
    pyLookup (dictInsert d k2 v) k = pyLookup d k := by
  unfold dictInsert
  by_cases hany : d.any (fun p => p.1 == k2) = true
  · rw [if_pos hany]
    exact pyLookup_map_ne d k k2 v h
  · rw [if_neg hany]
    exact pyLookup_append_ne d k k2 v h

/-- Inserting a fresh key is an append. -/
theorem dictInsert_fresh {α : Type} (d : List (String × α)) (k : String)
    (v : α) (h : k ∉ d.map Prod.fst) : dictInsert d k v = d ++ [(k, v)] := by
  unfold dictInsert
  rw [if_neg]
  simp only [List.any_eq_true, beq_iff_eq, not_exists, not_and]
  intro p hp hpk
  exact h (List.mem_map.mpr ⟨p, hp, hpk⟩)

/-- A one-pair `dictUpdate` is a `dictInsert`. -/
theorem dictUpdate_singleton {α : Type} (a : List (String × α)) (k : String)
    (v : α) : dictUpdate a [(k, v)] = dictInsert a k v := rfl

theorem splitComma_ne_nil (cs : List Char) : PyStr.splitComma cs ≠ [] := by
  induction cs with
  | nil => simp [PyStr.splitComma]
  | cons c rest ih =>
    unfold PyStr.splitComma
    by_cases hc : c = ','
    · simp [hc]
    · rw [if_neg hc]
      cases PyStr.splitComma rest with
      | nil => simp
      | cons piece pieces => simp

theorem normalizeSymbols_ne_nil (payload : String) :
    PyStr.normalizeSymbols payload ≠ [] := by
  unfold PyStr.normalizeSymbols
  simp [splitComma_ne_nil]

/-- The outcome of one `scrape_and_save` call does not depend on the
state of the collection it inserts into. -/
theorem scrape_and_save_snd (coll : List MainPy.Doc) (sym : String)
    (f : MainPy.FetchSim) :
    (MainPy.scrape_and_save coll sym f).2
      = (MainPy.scrape_and_save_core sym f).2 := by
  unfold MainPy.scrape_and_save
  rcases h : MainPy.scrape_and_save_core sym f with ⟨_ | d, o⟩ <;> simp

/-- The outcome list of the sequential batch loop is the per-symbol
outcome map, independent of the threaded collection. -/
theorem runSymbols_snd (f : String → MainPy.FetchSim) (syms : List String) :
    ∀ coll : List MainPy.Doc,
      (MainPy.runSymbols f syms coll).2
        = syms.map (fun s => (MainPy.scrape_and_save_core s (f s)).2) := by
  induction syms with
  | nil => intro coll; rfl
  | cons s rest ih =>
    intro coll
    simp only [MainPy.runSymbols, List.map_cons, ih, scrape_and_save_snd]

/-- The outcome list of the compare.py batch loop is the per-symbol
outcome map, independent of the threaded collection. -/
theorem runStocks_snd (f : String → Except String (Nat × Option ComparePy.UlData))
    (syms : List String) :
    ∀ coll : List MainPy.Doc,
      (ComparePy.runStocks f syms coll).2
        = syms.map (fun s => (ComparePy.stockResult s (f s)).2) := by
  induction syms with
  | nil => intro coll; rfl
  | cons s rest ih =>
    intro coll
    rcases h : ComparePy.stockResult s (f s) with ⟨_ | d, o⟩ <;>
      simp [ComparePy.runStocks, h, ih]

/-- The row-collecting loop of the section-table parsers is an
order-preserving filter of the arity-matching rows. -/
theorem dataTableFold (ths : List String) (trs : List (List String)) :
    ∀ acc : List Row,
      trs.foldl
        (fun rows cells =>
          if cells.length ≠ ths.length then rows
          else rows ++ [pyDict (ths.zip cells)]) acc
      = acc ++ (trs.filter (fun c => c.length = ths.length)).map
          (fun c => pyDict (ths.zip c)) := by
  induction trs with
  | nil => intro acc; simp
  | cons c cs ih =>
    intro acc
    simp only [List.foldl_cons]
    by_cases hc : c.length = ths.length
    · rw [if_neg (fun hne => hne hc), ih (acc ++ [pyDict (ths.zip c)])]
      simp [hc]
    · rw [if_pos hc, ih acc]
      simp [hc]

theorem ite_isEmpty {α : Type} (R : List α) :
    (if R.isEmpty then ([] : List α) else R) = R := by
  cases R <;> simp

/-- The head of a filtered list is the first match. -/
theorem head?_filter_eq {α : Type} (p : α → Bool) (l : List α) :
    (l.filter p).head? = l.find? p := by
  induction l with
  | nil => rfl
  | cons a l ih => cases hp : p a <;> simp [List.filter_cons, List.find?_cons, hp, ih]

/-- While the loop index stays within the header list and the headers it
will touch are mutually fresh, the `scrape_table_data` row loop appends
`(headers[idx], cell)` pairs in order. -/
theorem categoryRowAux_fresh (headers : List String) :
    ∀ (cs : List String) (i : Nat) (acc : Row),
      1 ≤ i →
      i + cs.length ≤ headers.length →
      ((headers.drop i).take cs.length).Nodup →
      (∀ k, k ∈ (headers.drop i).take cs.length → k ∉ acc.map Prod.fst) →
      BothPy.categoryRowAux headers i cs acc
        = .ok (acc ++ (headers.drop i).zip cs) := by
  intro cs
  induction cs with
  | nil =>
    intro i acc _ _ _ _
    simp [BothPy.categoryRowAux]
  | cons c cs ih =>
    intro i acc hi hlen hnd hfresh
    have hi0 : i ≠ 0 := by omega
    have hlt : i < headers.length := by
      simp only [List.length_cons] at hlen; omega
    have hdrop : headers.drop i = headers[i] :: headers.drop (i + 1) :=
      List.drop_eq_getElem_cons hlt
    have htake : (headers.drop i).take (c :: cs).length
        = headers[i] :: (headers.drop (i + 1)).take cs.length := by
      rw [hdrop, List.length_cons, List.take_succ_cons]
    have hhead_fresh : headers[i] ∉ acc.map Prod.fst := by
      apply hfresh
      rw [htake]; exact List.mem_cons_self _ _
    unfold BothPy.categoryRowAux
    rw [if_neg hi0]
    have hget : headers[i]? = some headers[i] := List.getElem?_eq_getElem hlt
    rw [hget]
    simp only []
    rw [dictInsert_fresh acc headers[i] c hhead_fresh]
    rw [ih (i + 1) (acc ++ [(headers[i], c)])
      (by omega)
      (by simp only [List.length_cons] at hlen; omega)
      (by
        rw [htake] at hnd
        exact hnd.of_cons)
      (by
        intro k hk
        have h1 : k ∉ acc.map Prod.fst := by
          apply hfresh
          rw [htake]
          exact List.mem_cons_of_mem _ hk
        have h2 : k ≠ headers[i] := by
          intro hkeq
          rw [htake] at hnd
          exact (List.nodup_cons.mp hnd).1 (hkeq ▸ hk)
        simp only [List.map_append, List.map_cons, List.map_nil, List.mem_append,
          List.mem_cons, List.not_mem_nil, or_false]
        rintro (hmem | hmem)
        · exact h1 hmem
        · exact h2 hmem)]
    rw [hdrop, List.zip_cons_cons]
    simp

/-- When the company page fetch succeeds and both the `ul#top-ratios`
and `div#quarterly-shp` fragments parse, `scrape_and_save` builds a
merged document carrying the symbol under `"stock_symbol"` and reports
success. -/
theorem scrape_core_persists (sym : String) (f : MainPy.FetchSim)
    (soup : MainPy.Soup) (lis : List MainPy.LiSpans) (ths : List String)
    (trs : List (List String)) (rws : List Row)
    (hpage : f.page = Except.ok (200, soup))
    (htop : soup.top_ratios = some lis)
    (hshp : soup.quarterly_shp = some ⟨some (some ths), some trs⟩)
    (hrows : trs.mapM (fun cells => MainPy.rowFromHeaders ths cells)
      = Except.ok rws) :
    ∃ d : MainPy.Doc,
      MainPy.scrape_and_save_core sym f
        = (some d, Outcome.msg sym "Data scraped and saved successfully.")
      ∧ pyLookup d "stock_symbol" = some (MainPy.Value.str sym) := by
  have hfetch : MainPy.fetch_page
      ("https://www.screener.in/company/" ++ sym ++ "/") f.page = .ok soup := by
    rw [hpage]; simp [MainPy.fetch_page]
  have hsh : MainPy.parse_shareholder_table soup
      = .ok (some [("shareholder_data", MainPy.Value.table rws)]) := by
    unfold MainPy.parse_shareholder_table
    rw [hshp]
    simp only []
    rw [hrows]
    rfl
  simp only [MainPy.scrape_and_save_core, hfetch, hsh, MainPy.parse_ul_top_ratios,
    htop, Option.isSome_some, Bool.or_self, if_true]
  refine ⟨_, rfl, ?_⟩
  simp only [MainPy.parse_profit_loss_table, MainPy.parse_balance_sheet_table,
    MainPy.parse_quaterly_result_table, MainPy.parse_peer_comparision_table,
    MainPy.shareholding_table, MainPy.cashflow_table]
  rw [pyLookup_dictInsert_ne _ _ _ _ (by decide)]
  have hupd : ∀ (a : MainPy.Doc) (k : String) (v : MainPy.Value),
      dictUpdate a [(k, v)] = dictInsert a k v := fun a k v => rfl
  have hupd2 : ∀ (a : MainPy.Doc) (k1 k2 : String) (v1 v2 : MainPy.Value),
      dictUpdate a [(k1, v1), (k2, v2)]
        = dictInsert (dictInsert a k1 v1) k2 v2 := fun a k1 k2 v1 v2 => rfl
  simp only [hupd, hupd2]
  iterate 8 rw [pyLookup_dictInsert_ne _ _ _ _ (by decide)]
  exact pyLookup_dictInsert _ _ _

/-!
## Claim theorems
-/

/-- C1 (counterexample): contrary to the claim that extraction on a
document lacking a fragment container returns Empty and never raises,
`scrape_table_data` raises an exception when the `quarterly-shp`
container is absent even though the document root parsed. -/
theorem C1_counterexample :
    BothPy.scrape_table_data "TCS" 200 none
      = Except.error "No table found with id \x27quarterly-shp\x27" := rfl

/-- C1 (amended): the main.py section parsers return the Empty fragment
(an empty row list under the fragment key) on a document lacking the
container, and, being total functions, never raise. -/
theorem C1_section_parsers_empty_on_absent_container (soup : MainPy.Soup)
    (hpl : soup.profit_loss = none) (hpeer : soup.peers_placeholder = none) :
    MainPy.parse_profit_loss_table soup
        = [("profit_loss", MainPy.Value.table [])]
      ∧ MainPy.parse_peer_comparision_table soup
        = [("peer_comparision", MainPy.Value.table [])] := by
  constructor
  · simp [MainPy.parse_profit_loss_table, MainPy.dataTableRows, hpl]
  · simp [MainPy.parse_peer_comparision_table, hpeer]

theorem C1_witness :
    MainPy.parse_profit_loss_table {}
        = [("profit_loss", MainPy.Value.table [])]
      ∧ MainPy.parse_peer_comparision_table {}
        = [("peer_comparision", MainPy.Value.table [])] :=
  C1_section_parsers_empty_on_absent_container {} rfl rfl

/-- C2 (counterexample): contrary to the claim that every row whose cell
count differs from the header count is excluded and never padded, the
peer-comparison parser keeps a two-cell row under three headers and pads
it with "N/A". -/
theorem C2_counterexample :
    MainPy.parse_peer_comparision_table
        { peers_placeholder := some ⟨some ⟨some ["A", "B", "C"],
            some [["x", "y"]]⟩⟩ }
      = [("peer_comparision", MainPy.Value.table
          [[("A", "x"), ("B", "y"), ("C", "N/A")]])] := rfl

/-- C2 (amended): in the section-table parsers (profit-loss and its
five siblings) every data row whose cell count differs from the header
count is excluded and the matching rows are kept in document order; the
peer-comparison parser instead keeps non-empty mismatched rows, padding
or truncating them to the header count. -/
theorem C2_arity_mismatch_rows_dropped (soup : MainPy.Soup)
    (ths : List String) (trs : List (List String))
    (hsec : soup.profit_loss = some ⟨some ⟨some ths, some trs⟩⟩)
    (hths : ths ≠ []) :
    MainPy.parse_profit_loss_table soup
      = [("profit_loss", MainPy.Value.table
          ((trs.filter (fun c => c.length = ths.length)).map
            (fun c => pyDict (ths.zip c))))] := by
  unfold MainPy.parse_profit_loss_table MainPy.dataTableRows
  rw [hsec]
  simp only []
  rw [if_neg (by simpa using hths)]
  rw [dataTableFold ths trs []]
  rw [List.nil_append, ite_isEmpty]

theorem C2_witness :
    MainPy.parse_profit_loss_table
        { profit_loss := some ⟨some ⟨some ["H1", "H2"],
            some [["a", "b"], ["x"], ["c", "d"]]⟩⟩ }
      = [("profit_loss", MainPy.Value.table
          (([["a", "b"], ["x"], ["c", "d"]].filter
              (fun c => c.length = (["H1", "H2"] : List String).length)).map
            (fun c => pyDict ((["H1", "H2"] : List String).zip c))))] :=
  C2_arity_mismatch_rows_dropped _ ["H1", "H2"]
    [["a", "b"], ["x"], ["c", "d"]] rfl (by decide)

/-- C4 (counterexample): contrary to the claim that a duplicate
fragment name in the merge is reported as an error, the dict-unpacking
merge used by `scrape_and_save` silently resolves the collision by
overwrite: merging a later fragment under an already-used name yields
the later value. -/
theorem C4_counterexample :
    dictUpdate [("shareholder_data", MainPy.Value.str "earlier")]
        [("shareholder_data", MainPy.Value.str "later")]
      = [("shareholder_data", MainPy.Value.str "later")] := rfl

/-- C4 (amended): the `{**a, **b}` merge combining the extracted
fragments has no error path at all; a later fragment merged under an
existing key silently overwrites the earlier value (last write wins). -/
theorem C4_merge_overwrites_silently (a : MainPy.Doc) (k : String)
    (v : MainPy.Value) :
    pyLookup (dictUpdate a [(k, v)]) k = some v := by
  rw [dictUpdate_singleton]
  exact pyLookup_dictInsert a k v

/-- C7 (counterexample): contrary to the claim that a non-2xx response
yields a Failure carrying the status code of that response and a 2xx
response a parsed document, a 500 response raises an HTTPException
carrying the fixed status 404, and a 201 (2xx) response also fails. -/
theorem C7_counterexample :
    MainPy.fetch_page "https://example.org/" (Except.ok (500, {}))
        = MainPy.FetchPageResult.httpError 404
            "Failed to fetch page: https://example.org/"
      ∧ MainPy.fetch_page "https://example.org/" (Except.ok (201, {}))
        = MainPy.FetchPageResult.httpError 404
            "Failed to fetch page: https://example.org/"
      ∧ (404 : Nat) ≠ 500 := ⟨rfl, rfl, by decide⟩

/-- C7 (amended): `fetch_page` returns the parsed document for a 200
response; for any other status it raises an HTTPException with the
fixed status code 404 whose detail names the URL (not the response
status); a network exception propagates with its underlying cause. -/
theorem C7_fetch_page_behaviour (url : String) (st : Nat)
    (doc : MainPy.Soup) (cause : String) (h : st ≠ 200) :
    MainPy.fetch_page url (Except.ok (st, doc))
        = MainPy.FetchPageResult.httpError 404 ("Failed to fetch page: " ++ url)
      ∧ MainPy.fetch_page url (Except.ok (200, doc))
        = MainPy.FetchPageResult.ok doc
      ∧ MainPy.fetch_page url (Except.error cause)
        = MainPy.FetchPageResult.requestError cause := by
  refine ⟨?_, rfl, rfl⟩
  simp [MainPy.fetch_page, h]

theorem C7_witness :
    MainPy.fetch_page "u" (Except.ok (500, {}))
        = MainPy.FetchPageResult.httpError 404 ("Failed to fetch page: " ++ "u")
      ∧ MainPy.fetch_page "u" (Except.ok (200, {}))
        = MainPy.FetchPageResult.ok {}
      ∧ MainPy.fetch_page "u" (Except.error "ConnectionError")
        = MainPy.FetchPageResult.requestError "ConnectionError" :=
  C7_fetch_page_behaviour "u" 500 {} "ConnectionError" (by decide)

/-- C8 (confirmed): the i-th entry of the batch result list is the
outcome of the i-th requested symbol — outcomes are collected in
submission order. -/
theorem C8_outcomes_in_submission_order (payload : String)
    (f : String → MainPy.FetchSim) (coll : List MainPy.Doc) (i : Nat) :
    ((MainPy.scrape_shareholder_data payload f coll).2)[i]?
      = ((PyStr.normalizeSymbols payload)[i]?).map
          (fun s => (MainPy.scrape_and_save_core s (f s)).2) := by
  unfold MainPy.scrape_shareholder_data
  rw [runSymbols_snd]
  exact List.getElem?_map _ _ _

/-- C10 (counterexample): contrary to the claim that every anchor with
an href produces a record, an anchor whose href is the empty string is
skipped entirely (the falsy `a_tag.get("href")` check), so no record
with url "" is returned. -/
theorem C10_counterexample :
    MainPy.scrape_annual_reports
        (Except.ok (200, some [⟨some ⟨some "", "Annual Report 2023"⟩⟩]))
      = [] := rfl

/-- C10 (amended): for every anchor with a non-empty href, the url of
the returned record is the href prefixed with the bseindia host when it
starts with "/" and the href unchanged otherwise, and the year of the
record is the first whitespace-separated all-digit token of the anchor
text, defaulting to "Unknown Year". -/
theorem C10_annual_report_record (h t : String) (hh : h ≠ "") :
    MainPy.scrape_annual_reports
        (Except.ok (200, some [⟨some ⟨some h, t⟩⟩]))
        = [(MainPy.yearOf t, MainPy.reportLink h)]
      ∧ MainPy.reportLink h
        = (if h.startsWith "/" then "https://www.bseindia.com" ++ h else h)
      ∧ MainPy.yearOf t
        = ((((PyStr.pySplitWs (PyStr.pyStrip t.toList)).find?
              PyStr.pyIsDigit).map String.mk).getD "Unknown Year") := by
  refine ⟨?_, rfl, ?_⟩
  · simp [MainPy.scrape_annual_reports, hh]
  · unfold MainPy.yearOf
    rw [← head?_filter_eq]
    cases hf : (PyStr.pySplitWs (PyStr.pyStrip t.toList)).filter PyStr.pyIsDigit with
    | nil => simp
    | cons w ws => simp

theorem C10_witness :
    MainPy.scrape_annual_reports
        (Except.ok (200, some [⟨some ⟨some "/AR2023.pdf", "Annual Report 2023"⟩⟩]))
        = [(MainPy.yearOf "Annual Report 2023", MainPy.reportLink "/AR2023.pdf")]
      ∧ MainPy.reportLink "/AR2023.pdf"
        = (if String.startsWith "/AR2023.pdf" "/"
            then "https://www.bseindia.com" ++ "/AR2023.pdf" else "/AR2023.pdf")
      ∧ MainPy.yearOf "Annual Report 2023"
        = ((((PyStr.pySplitWs (PyStr.pyStrip
              ("Annual Report 2023" : String).toList)).find?
              PyStr.pyIsDigit).map String.mk).getD "Unknown Year") :=
  C10_annual_report_record "/AR2023.pdf" "Annual Report 2023" (by decide)

/-- C3 (counterexample): contrary to the claim that persisting twice
leaves exactly one stored document, running the pipeline twice for the
same symbol with identical input markup leaves two stored documents for
that symbol (`insert_one` appends; there is no upsert). -/
theorem C3_counterexample :
    (MainPy.scrape_and_save
        (MainPy.scrape_and_save [] "TCS" fetchPersist).1
        "TCS" fetchPersist).1.length = 2
      ∧ storedFor
          (MainPy.scrape_and_save
            (MainPy.scrape_and_save [] "TCS" fetchPersist).1
            "TCS" fetchPersist).1 "TCS" = 2 := by
  constructor <;> rfl

/-- C3 (amended): re-running the pipeline for the same symbol with
identical input markup is deterministic — the same merged document is
produced both times — but persisting it each time appends a second
copy: two stored documents for the symbol remain, not one. -/
theorem C3_rerun_appends_second_document (coll : List MainPy.Doc)
    (sym : String) (f : MainPy.FetchSim) (soup : MainPy.Soup)
    (lis : List MainPy.LiSpans) (ths : List String)
    (trs : List (List String)) (rws : List Row)
    (hpage : f.page = Except.ok (200, soup))
    (htop : soup.top_ratios = some lis)
    (hshp : soup.quarterly_shp = some ⟨some (some ths), some trs⟩)
    (hrows : trs.mapM (fun cells => MainPy.rowFromHeaders ths cells)
      = Except.ok rws) :
    ∃ d : MainPy.Doc,
      MainPy.scrape_and_save coll sym f
        = (coll ++ [d], Outcome.msg sym "Data scraped and saved successfully.")
      ∧ MainPy.scrape_and_save (coll ++ [d]) sym f
        = (coll ++ [d, d],
           Outcome.msg sym "Data scraped and saved successfully.")
      ∧ storedFor (coll ++ [d, d]) sym = storedFor coll sym + 2 := by
  obtain ⟨d, hcore, hlook⟩ :=
    scrape_core_persists sym f soup lis ths trs rws hpage htop hshp hrows
  refine ⟨d, ?_, ?_, ?_⟩
  · unfold MainPy.scrape_and_save
    rw [hcore]
  · unfold MainPy.scrape_and_save
    rw [hcore]
    simp
  · simp [storedFor, List.filter_append, hlook]

theorem C3_witness :
    ∃ d : MainPy.Doc,
      MainPy.scrape_and_save [] "TCS" fetchPersist
        = ([] ++ [d],
           Outcome.msg "TCS" "Data scraped and saved successfully.")
      ∧ MainPy.scrape_and_save ([] ++ [d]) "TCS" fetchPersist
        = ([] ++ [d, d],
           Outcome.msg "TCS" "Data scraped and saved successfully.")
      ∧ storedFor ([] ++ [d, d]) "TCS" = storedFor [] "TCS" + 2 :=
  C3_rerun_appends_second_document [] "TCS" fetchPersist
    { top_ratios := some [], quarterly_shp := some ⟨some (some []), some []⟩ }
    [] [] [] [] rfl rfl rfl rfl

/-- C5 (confirmed): the batch endpoint returns exactly one outcome per
requested symbol (even for symbols whose whole pipeline fails), and one
transport failure of one symbol does not alter the outcome of any other
symbol of the batch: the i-th outcome depends only on the fetch
environment of the i-th symbol. -/
theorem C5_one_outcome_per_symbol_isolated (payload : String)
    (f g : String → MainPy.FetchSim) (coll coll2 : List MainPy.Doc)
    (i : Nat) (s : String)
    (hs : (PyStr.normalizeSymbols payload)[i]? = some s)
    (hfg : f s = g s) :
    ((MainPy.scrape_shareholder_data payload f coll).2).length
        = (PyStr.normalizeSymbols payload).length
      ∧ ((MainPy.scrape_shareholder_data payload f coll).2)[i]?
        = ((MainPy.scrape_shareholder_data payload g coll2).2)[i]? := by
  unfold MainPy.scrape_shareholder_data
  rw [runSymbols_snd, runSymbols_snd]
  constructor
  · simp
  · rw [List.getElem?_map, List.getElem?_map, hs]
    simp [hfg]

theorem C5_witness :
    ((MainPy.scrape_shareholder_data "TCS,INFY" fetchIso []).2).length
        = (PyStr.normalizeSymbols "TCS,INFY").length
      ∧ ((MainPy.scrape_shareholder_data "TCS,INFY" fetchIso []).2)[0]?
        = ((MainPy.scrape_shareholder_data "TCS,INFY" fetchAllOk []).2)[0]? :=
  C5_one_outcome_per_symbol_isolated "TCS,INFY" fetchIso fetchAllOk [] [] 0
    "TCS" (by decide)
    (by unfold fetchIso fetchAllOk; rw [if_neg (by decide)])

/-- C6 (counterexample): contrary to the claim that an empty input
string starts no scrape and is reported as a caller error, the empty
payload normalizes to the single empty symbol [""] and one pipeline
runs for it — no 400 error is raised. -/
theorem C6_counterexample :
    ComparePy.scrape_multiple_stocks "" (fun _ => Except.ok (200, none)) []
      = Except.ok ([],
          [Outcome.msg "" "No <ul> with id=\x27top-ratios\x27 found."]) := rfl

/-- C6 (amended): each comma-separated token is normalized by trimming
whitespace and uppercasing, but the resulting symbol list is never
empty — the Python split always returns at least one (possibly empty)
token — so the empty-list caller-error branch never fires and every
request, including an empty or all-whitespace one, runs one pipeline
per token. -/
theorem C6_empty_guard_never_fires (payload : String)
    (f : String → Except String (Nat × Option ComparePy.UlData))
    (coll : List MainPy.Doc) :
    ∃ docs : List MainPy.Doc,
      ComparePy.scrape_multiple_stocks payload f coll
        = Except.ok (docs, (PyStr.normalizeSymbols payload).map
            (fun s => (ComparePy.stockResult s (f s)).2))
      ∧ (PyStr.normalizeSymbols payload).length
          = (PyStr.splitComma payload.toList).length
      ∧ 1 ≤ (PyStr.normalizeSymbols payload).length := by
  have hne := normalizeSymbols_ne_nil payload
  unfold ComparePy.scrape_multiple_stocks
  rw [if_neg (by simpa using hne)]
  refine ⟨(ComparePy.runStocks f (PyStr.normalizeSymbols payload) coll).1,
    ?_, ?_, ?_⟩
  · rw [← runStocks_snd f (PyStr.normalizeSymbols payload) coll]
  · simp [PyStr.normalizeSymbols]
  · have hpos := List.length_pos.mpr hne
    omega

/-- C9 (confirmed): for a table whose rows carry an unheaded
first-column label, `scrape_table_data` emits the label as the value of
the synthetic header "Category" and maps each remaining cell at index i
to the i-th header; in particular the header
["Particulars","Mar-23","Mar-24"] with row ["Sales","100","120"] yields
the single row {"Category": "Sales", "Mar-23": "100", "Mar-24": "120"}. -/
theorem C9_category_row_mapping (stock_symbol : String)
    (headers : List String) (c : String) (cs : List String)
    (hlen : 1 + cs.length ≤ headers.length)
    (hkeys : ("Category" :: (headers.drop 1).take cs.length).Nodup) :
    BothPy.scrape_table_data stock_symbol 200
        (some ⟨some (some headers), some [c :: cs]⟩)
      = .ok (stock_symbol, [("Category", c) :: (headers.drop 1).zip cs]) := by
  have hcat := (List.nodup_cons.mp hkeys).1
  have hnd := (List.nodup_cons.mp hkeys).2
  have step : BothPy.categoryRow headers (c :: cs)
      = BothPy.categoryRowAux headers 1 cs [("Category", c)] := rfl
  have hrow : BothPy.categoryRow headers (c :: cs)
      = .ok (("Category", c) :: (headers.drop 1).zip cs) := by
    rw [step]
    rw [categoryRowAux_fresh headers cs 1 [("Category", c)] (le_refl 1)
      (by omega) hnd
      (by
        intro k hk
        simp only [List.map_cons, List.map_nil, List.mem_singleton]
        intro hkc
        exact hcat (hkc ▸ hk))]
    simp
  unfold BothPy.scrape_table_data
  rw [if_pos rfl]
  simp only [List.mapM, List.mapM.loop, hrow]
  rfl

theorem C9_witness :
    BothPy.scrape_table_data "X" 200
        (some ⟨some (some ["Particulars", "Mar-23", "Mar-24"]),
          some [["Sales", "100", "120"]]⟩)
      = .ok ("X", [[("Category", "Sales"), ("Mar-23", "100"),
          ("Mar-24", "120")]]) := by
  have h := C9_category_row_mapping "X" ["Particulars", "Mar-23", "Mar-24"]
    "Sales" ["100", "120"] (by decide) (by decide)
  simpa using h
